import Mathlib

set_option maxRecDepth 100000

set_option maxHeartbeats 1000000

/-!
Shallow embedding of cmd/coordinator/buildongce/create.go from the
golang-build repository, together with theorems settling the frozen claims
about its specification.  Go strings are modelled as Lean strings, Go byte
lengths as UTF-8 byte counts, machine-level file and network effects as
explicit environment records, and every fatal log.Fatalf exit as an
explicit terminal result.
-/

/-- Character constants used to build strings whose literal spelling would be
awkward: double quote, backslash, opening and closing curly brace. -/
def qC : Char := Char.ofNat 34

/-- Backslash character. -/
def bsC : Char := Char.ofNat 92

/-- Opening curly brace character. -/
def lbC : Char := Char.ofNat 123

/-- Closing curly brace character. -/
def rbC : Char := Char.ofNat 125

/-- Newline character. -/
def nlC : Char := Char.ofNat 10

/-- Carriage return character. -/
def crC : Char := Char.ofNat 13

/-- Horizontal tab character. -/
def tbC : Char := Char.ofNat 9

/-- UTF-8 encoded byte length of one character, as Go len() counts it. -/
def utf8Len (c : Char) : Nat :=
  if c.toNat < 128 then 1
  else if c.toNat < 2048 then 2
  else if c.toNat < 65536 then 3
  else 4

/-- UTF-8 byte length of a character list. -/
def strBytesL : List Char → Nat
  | [] => 0
  | c :: cs => utf8Len c + strBytesL cs

/-- UTF-8 byte length of a string, modelling Go len(s). -/
def strBytes (s : String) : Nat := strBytesL s.data

/-- Go unicode space test restricted to the ASCII whitespace characters that
occur in the files this program reads; models unicode.IsSpace on them. -/
def isSpaceC (c : Char) : Bool :=
  c == ' ' || c == nlC || c == tbC || c == crC ||
    c == Char.ofNat 11 || c == Char.ofNat 12

/-- Model of strings.TrimSpace on the character list level. -/
def trimSpaceL (l : List Char) : List Char :=
  ((l.dropWhile isSpaceC).reverse.dropWhile isSpaceC).reverse

/-- Model of strings.TrimSpace. -/
def trimSpace (s : String) : String := String.mk (trimSpaceL s.data)

/-- Model of the search for the first occurrence of a pattern inside a list:
returns the part before the first occurrence and the part after it. -/
def splitFirstL (pat : List Char) : List Char → Option (List Char × List Char)
  | [] => if pat.isPrefixOf ([] : List Char) then some ([], []) else none
  | c :: cs =>
    if pat.isPrefixOf (c :: cs) then some ([], (c :: cs).drop pat.length)
    else (splitFirstL pat cs).map (fun p => (c :: p.1, p.2))

/-- Model of strings.Replace(s, pat, rep, 1): replace the first occurrence of
pat by rep, or return s unchanged when pat does not occur. -/
def replaceOnceL (s pat rep : List Char) : List Char :=
  match splitFirstL pat s with
  | some (pre, suf) => pre ++ rep ++ suf
  | none => s

/-- String-level wrapper for replaceOnceL. -/
def replaceOnce (s pat rep : String) : String :=
  String.mk (replaceOnceL s.data pat.data rep.data)

/-- Base cloud-config template, the Go constant baseConfig of create.go,
reproduced byte for byte (the two indented blank lines consist of eight
spaces each, as in the Go raw string literal). -/
def baseConfig : String :=
  "#cloud-config\n" ++
  "coreos:\n" ++
  "  update:\n" ++
  "    group: stable\n" ++
  "    reboot-strategy: off\n" ++
  "  units:\n" ++
  "    - name: gobuild.service\n" ++
  "      command: start\n" ++
  "      content: |\n" ++
  "        [Unit]\n" ++
  "        Description=Go Builders\n" ++
  "        After=docker.service\n" ++
  "        Requires=docker.service\n" ++
  "        \n" ++
  "        [Service]\n" ++
  "        ExecStartPre=/bin/bash -c \x27mkdir -p /opt/bin && curl -s -o /opt/bin/coordinator.tmp $COORDINATOR && install -m 0755 /opt/bin/coordinator\x7b.tmp,\x7d\x27\n" ++
  "        ExecStart=/opt/bin/coordinator\n" ++
  "        RestartSec=10s\n" ++
  "        Restart=always\n" ++
  "        StartLimitInterval=0\n" ++
  "        Type=simple\n" ++
  "        \n" ++
  "        [Install]\n" ++
  "        WantedBy=multi-user.target\n"

/-- Hard-coded public key appended for the bradfitz user, line 135 of
create.go. -/
def bradKey : String :=
  "ssh-rsa AAAAB3NzaC1yc2EAAAABIwAAAIEAwks9dwWKlRC+73gRbvYtVg0vdCwDSuIlyt4z6xa/YU/jTDynM4R4W10hm2tPjy8iR1k8XhDv4/qdxe6m07NjG/By1tkmGpm1mGwho4Pr5kbAAy/Qg+NLCSdAYnnE00FQEcFOC15GFVMOW2AzDGKisReohwH9eIzHPzdYQNPRWXE= bradfitz@papag.bradfitz.com"

/-- SSH authorized-key stanza appended to the cloud config for a given key,
the Sprintf at lines 132 and 135 of create.go. -/
def sshStanza (key : String) : String :=
  "\nssh_authorized_keys:\n    - " ++ key ++ "\n"

/-- Rendered startup metadata blob, lines 129 through 136 of create.go:
substitute the coordinator URL for the first occurrence of the placeholder,
append the stanza for the configured SSH public key file content when the
flag is set (the content is trimmed by readFile and trimmed again at the
call site), and append the hard-coded stanza when the USER environment
variable equals bradfitz. -/
def cloudConfigOf (coord : String) (sshKey : Option String) (user : String) : String :=
  let c0 := replaceOnce baseConfig ("$COORDINATOR") coord
  let c1 := match sshKey with
    | none => c0
    | some k => c0 ++ sshStanza (trimSpace (trimSpace k))
  if user == "bradfitz" then c1 ++ sshStanza bradKey else c1

/-- Maximum allowed cloud config size in bytes, the constant 32 shifted left
by 10 at line 137 of create.go. -/
def maxCloudConfig : Nat := 32768

/-- Address entry of the aggregated address list, the fields of the compute
Address type that create.go reads. -/
structure Address where
  name : String
  status : String
  address : String
deriving DecidableEq

/-- Disk entry of the zone disk list, the fields of the compute Disk type
that create.go reads. -/
structure Disk where
  name : String
  selfLink : String
deriving DecidableEq

/-- Initialization parameters of a freshly specified disk, mirroring
compute.AttachedDiskInitializeParams as used in create.go. -/
structure InitParams where
  diskName : String
  sourceImage : String
  diskSizeGb : Int
  diskType : String
deriving DecidableEq

/-- Attached disk descriptor, mirroring the fields of compute.AttachedDisk
that create.go sets; initializeParams is none on the reference branch and
source is the empty string on the specification branch, matching the Go
zero values of the fields the code leaves unset. -/
structure AttachedDisk where
  autoDelete : Bool
  boot : Bool
  deviceName : String
  diskKind : String
  source : String
  mode : String
  initializeParams : Option InitParams
deriving DecidableEq

/-- CoreOS image URL, the constant imageURL of instanceDisk. -/
def imageURL : String :=
  "https://www.googleapis.com/compute/v1/projects/coreos-cloud/global/images/coreos-stable-723-3-0-v20150804"

/-- URL of the solid state disk type for a project and zone, line 301 of
create.go. -/
def ssdTypeURL (proj zone : String) : String :=
  "https://www.googleapis.com/compute/v1/projects/" ++ proj ++ "/zones/" ++
    zone ++ "/diskTypes/pd-ssd"

/-- Disk resolver, the function instanceDisk of create.go, lines 266 to 315,
with the listed disks passed in place of the Disks.List network call; when
reuse is false the code never issues the listing call, which the run model
below reflects by passing an empty list. -/
def instanceDisk (instName proj zone : String) (reuse ssd : Bool)
    (disks : List Disk) : AttachedDisk :=
  let diskName := instName ++ "-coreos-stateless-pd"
  match (if reuse then disks.find? (fun d => d.name == diskName) else none) with
  | some d =>
    { autoDelete := false
      boot := true
      deviceName := diskName
      diskKind := "PERSISTENT"
      source := d.selfLink
      mode := "READ_WRITE"
      initializeParams := none }
  | none =>
    { autoDelete := !reuse
      boot := true
      deviceName := ""
      diskKind := "PERSISTENT"
      source := ""
      mode := ""
      initializeParams := some
        { diskName := diskName
          sourceImage := imageURL
          diskSizeGb := 50
          diskType := if ssd then ssdTypeURL proj zone else "" } }

/-- Hard-coded static IP assignment of lines 92 to 102 of create.go: when
the static_ip flag is empty, two known project IDs receive fixed legacy
addresses; every other project keeps the empty string. -/
def hardcodeIP (proj ip : String) : String :=
  if ip == "" then
    if proj == "symbolic-datum-552" then "107.178.219.46"
    else if proj == "go-dashboard-dev" then "104.154.113.235"
    else ""
  else ip

/-- Scan of the aggregated address list, the nested loop labelled IPLoop at
lines 118 to 126 of create.go: the first address in iteration order whose
name is the instance name followed by -ip and whose status is RESERVED. -/
def findReservedIP (instName : String) : List (List Address) → Option String
  | [] => none
  | sl :: rest =>
    match sl.find?
        (fun a => a.name == instName ++ "-ip" && a.status == "RESERVED") with
    | some a => some a.address
    | none => findReservedIP instName rest

/-- Full network address resolution as create.go performs it: apply the
hard-coded project defaults to the flag value, then, only when the result is
still empty, fall back to the reserved address lookup, and finally to the
empty string meaning dynamic allocation. -/
def resolveNatIP (proj instName ip : String) (items : List (List Address)) : String :=
  let ip2 := hardcodeIP proj ip
  if ip2 == "" then ((findReservedIP instName items).getD ("")) else ip2

/-- Resolution order exactly as the words of claim C3 state it, with no
project-specific hard-coded step: explicit input when non-empty, otherwise
the reserved address lookup, otherwise the empty sentinel. -/
def claimResolveNatIP (instName ip : String) (items : List (List Address)) : String :=
  if ip == "" then ((findReservedIP instName items).getD ("")) else ip

/-- Amended resolution order: explicit input, then the hard-coded legacy
address for the two known project IDs, then the reserved address lookup,
then the empty sentinel. -/
def amendedResolveNatIP (proj instName ip : String) (items : List (List Address)) : String :=
  if ip != "" then ip
  else if proj == "symbolic-datum-552" then "107.178.219.46"
  else if proj == "go-dashboard-dev" then "104.154.113.235"
  else (findReservedIP instName items).getD ("")

/-- Scope URL constant compute.DevstorageFullControlScope of the consumed
compute library. -/
def devstorageFullControlScope : String :=
  "https://www.googleapis.com/auth/devstorage.full_control"

/-- Scope URL constant compute.DevstorageReadWriteScope of the consumed
compute library, the canonical storage read-write scope named by the words
of claim C8. -/
def devstorageReadWriteScope : String :=
  "https://www.googleapis.com/auth/devstorage.read_write"

/-- Scope URL constant compute.ComputeScope of the consumed compute
library. -/
def computeManagementScope : String :=
  "https://www.googleapis.com/auth/compute"

/-- Scope URL constant compute.CloudPlatformScope of the consumed compute
library. -/
def cloudPlatformScope : String :=
  "https://www.googleapis.com/auth/cloud-platform"

/-- Scope list following the words of claim C8: storage read-write, compute
management, and full cloud-platform access. -/
def claimScopes : List String :=
  [devstorageReadWriteScope, computeManagementScope, cloudPlatformScope]

/-- Service account request of an instance specification. -/
structure ServiceAccount where
  email : String
  scopes : List String
deriving DecidableEq

/-- Access configuration of a network interface. -/
structure AccessConfig where
  kind : String
  name : String
  natIP : String
deriving DecidableEq

/-- Network interface of an instance specification. -/
structure NetworkInterface where
  accessConfigs : List AccessConfig
  network : String
deriving DecidableEq

/-- Metadata item of an instance specification. -/
structure MetadataItem where
  key : String
  value : String
deriving DecidableEq

/-- Instance specification, mirroring the compute.Instance literal built at
lines 142 to 180 of create.go. -/
structure Instance where
  name : String
  description : String
  machineType : String
  disks : List AttachedDisk
  tags : List String
  metadata : List MetadataItem
  networkInterfaces : List NetworkInterface
  serviceAccounts : List ServiceAccount
deriving DecidableEq

/-- Instance specification builder, the compute.Instance literal of main,
lines 142 to 180 of create.go; urlBase is the projects URL computed at line
103 and machType the machine type URL of line 104. -/
def buildInstance (instName machType urlBase : String) (disk : AttachedDisk)
    (cloudConfig natIP : String) : Instance :=
  { name := instName
    description := "Go Builder"
    machineType := machType
    disks := [disk]
    tags := ["http-server", "https-server", "allow-ssh"]
    metadata := [{ key := "user-data", value := cloudConfig }]
    networkInterfaces :=
      [{ accessConfigs :=
           [{ kind := "ONE_TO_ONE_NAT", name := "External NAT", natIP := natIP }]
         network := urlBase ++ "/global/networks/default" }]
    serviceAccounts :=
      [{ email := "default"
         scopes := [devstorageFullControlScope, computeManagementScope,
                    cloudPlatformScope] }] }

/-- Sub-error of a completed operation, mirroring the fields of the compute
OperationErrorErrors type that create.go logs. -/
structure OpError where
  code : String
  location : String
  message : String
deriving DecidableEq

/-- Operation snapshot returned by a poll, mirroring the fields of
compute.Operation that create.go reads; the error field is some when the Go
pointer op.Error is non-nil and carries the contained list of sub-errors. -/
structure Operation where
  name : String
  status : String
  error : Option (List OpError)
deriving DecidableEq

/-- Network calls that main issues against the compute API, in the order the
run model records them. -/
inductive ApiCall where
  | aggregatedAddressList
  | diskList
  | insertInstance
  | getOperation
  | getInstance
deriving DecidableEq

/-- Terminal conditions of the run; each fatal constructor stands for one
log.Fatalf call site of create.go and carries what that site logs. -/
inductive Fatal where
  | missingProject
  | fileReadError (path : String)
  | addrListError (msg : String)
  | configTooLarge (n : Nat)
  | diskListError (msg : String)
  | insertError (msg : String)
  | opGetError (msg : String)
  | operationError (errs : List OpError)
  | unknownStatus (s : String)
  | instGetError (msg : String)
deriving DecidableEq

/-- Result of a run: success, a fatal exit, or hung, the state in which the
unbounded poll loop is still waiting for a further response beyond the
supplied ones. -/
inductive RunResult where
  | success
  | fatal (f : Fatal)
  | hung
deriving DecidableEq

/-- Result of the poll loop alone. -/
inductive LoopRes where
  | hung
  | success (op : Operation)
  | opFailed (errs : List OpError)
  | getFailed (msg : String)
  | unknown (s : String)
deriving DecidableEq

/-- Poll loop of main, the loop labelled OpLoop at lines 189 to 212 of
create.go, driven by the successive results of the ZoneOperations.Get call;
each consumed response is recorded as one getOperation call.  A PENDING or
RUNNING status continues the loop, DONE inspects the error field (every
contained sub-error is logged, which the opFailed constructor carries), any
other status is fatal, and a failed Get call is fatal. -/
def opLoop : List (Except String Operation) → List ApiCall × LoopRes
  | [] => ([], LoopRes.hung)
  | r :: rest =>
    match r with
    | Except.error e => ([ApiCall.getOperation], LoopRes.getFailed e)
    | Except.ok op =>
      if op.status == "PENDING" || op.status == "RUNNING" then
        let t := opLoop rest
        (ApiCall.getOperation :: t.1, t.2)
      else if op.status == "DONE" then
        match op.error with
        | some errs => ([ApiCall.getOperation], LoopRes.opFailed errs)
        | none => ([ApiCall.getOperation], LoopRes.success op)
      else ([ApiCall.getOperation], LoopRes.unknown op.status)

/-- Provider-side environment of one run: the outcome of every network call
the program may issue, in the order the program consults them. -/
structure ProviderEnv where
  addrList : Except String (List (List Address))
  disks : Except String (List Disk)
  insertOp : Except String String
  polls : List (Except String Operation)
  finalInst : Except String String
deriving Inhabited

/-- Flag values of one run; sshPub is none when the ssh_public_key flag is
empty, some none when the flag names an unreadable file (readFile then
fatals), and some some content when the file reads successfully. -/
structure Flags where
  proj : String
  zone : String
  mach : String
  instName : String
  sshPub : Option (Option String)
  staticIP : String
  reuseDisk : Bool
  ssd : Bool
  coordinator : String
  staging : Bool

/-- Whole-run environment: flags, the USER environment variable, and the
provider responses. -/
structure RunEnv where
  flags : Flags
  userEnv : String
  provider : ProviderEnv

/-- Default production coordinator URL, the default of the coord flag. -/
def defaultCoordURL : String :=
  "https://storage.googleapis.com/go-builder-data/coordinator"

/-- Development coordinator URL substituted in staging mode. -/
def devCoordURL : String :=
  "https://storage.googleapis.com/dev-go-builder-data/coordinator"

/-- Effective project after the staging remap of lines 81 to 88. -/
def effProj (f : Flags) : String :=
  if f.staging && (f.proj == "symbolic-datum-552") then "go-dashboard-dev"
  else f.proj

/-- Effective coordinator URL after the staging remap of lines 81 to 88. -/
def effCoordinator (f : Flags) : String :=
  if f.staging && (f.coordinator == defaultCoordURL) then devCoordURL
  else f.coordinator

/-- SSH key file content as the render step sees it: none when the flag is
empty or the file is unreadable (the unreadable case never reaches the
render step because readFile fatals first). -/
def sshKeyOf (f : Flags) : Option String :=
  match f.sshPub with
  | some (some k) => some k
  | _ => none

/-- Rendered startup metadata blob of a run environment. -/
def renderedConfigOf (env : RunEnv) : String :=
  cloudConfigOf (effCoordinator env.flags) (sshKeyOf env.flags) env.userEnv

/-- Phase of main after a successful Instances.Insert call: the poll loop
followed, on success only, by the single confirmatory Instances.Get call of
lines 214 to 219. -/
def afterInsertPhase (p : ProviderEnv) : List ApiCall × RunResult :=
  let t := opLoop p.polls
  match t.2 with
  | LoopRes.hung => (t.1, RunResult.hung)
  | LoopRes.getFailed e => (t.1, RunResult.fatal (Fatal.opGetError e))
  | LoopRes.opFailed errs => (t.1, RunResult.fatal (Fatal.operationError errs))
  | LoopRes.unknown s => (t.1, RunResult.fatal (Fatal.unknownStatus s))
  | LoopRes.success _ =>
    match p.finalInst with
    | Except.error e =>
      (t.1 ++ [ApiCall.getInstance], RunResult.fatal (Fatal.instGetError e))
    | Except.ok _ => (t.1 ++ [ApiCall.getInstance], RunResult.success)

/-- Phase of main from the cloud config rendering to the end, lines 129 to
219: render and size-check the startup metadata, resolve the disk (listing
disks only when reuse is requested), build the instance specification,
insert it, and hand over to the poll phase.  The pre argument carries the
calls already issued. -/
def buildPhase (env : RunEnv) (proj coord natIP : String)
    (pre : List ApiCall) : List ApiCall × RunResult :=
  match env.flags.sshPub with
  | some none => (pre, RunResult.fatal (Fatal.fileReadError ("ssh_public_key")))
  | _ =>
    let cc := cloudConfigOf coord (sshKeyOf env.flags) env.userEnv
    if strBytes cc > maxCloudConfig then
      (pre, RunResult.fatal (Fatal.configTooLarge (strBytes cc)))
    else
      let diskStep : Except (List ApiCall × RunResult) (List ApiCall × AttachedDisk) :=
        if env.flags.reuseDisk then
          match env.provider.disks with
          | Except.error e =>
            Except.error (pre ++ [ApiCall.diskList],
              RunResult.fatal (Fatal.diskListError e))
          | Except.ok ds =>
            Except.ok (pre ++ [ApiCall.diskList],
              instanceDisk env.flags.instName proj env.flags.zone true
                env.flags.ssd ds)
        else
          Except.ok (pre,
            instanceDisk env.flags.instName proj env.flags.zone false
              env.flags.ssd [])
      match diskStep with
      | Except.error out => out
      | Except.ok (calls, disk) =>
        let urlBase := "https://www.googleapis.com/compute/v1/projects/" ++ proj
        let machType := urlBase ++ "/zones/" ++ env.flags.zone ++
          "/machineTypes/" ++ env.flags.mach
        let _inst := buildInstance env.flags.instName machType urlBase disk cc natIP
        match env.provider.insertOp with
        | Except.error e =>
          (calls ++ [ApiCall.insertInstance],
            RunResult.fatal (Fatal.insertError e))
        | Except.ok _ =>
          let t := afterInsertPhase env.provider
          (calls ++ [ApiCall.insertInstance] ++ t.1, t.2)

/-- Whole run of main, lines 78 to 220 of create.go: staging remap, project
presence check, hard-coded static IP defaults, reserved address lookup when
needed, then the build phase.  The result pairs the list of issued network
calls with the terminal state. -/
def run (env : RunEnv) : List ApiCall × RunResult :=
  let proj := effProj env.flags
  let coord := effCoordinator env.flags
  if proj == "" then ([], RunResult.fatal Fatal.missingProject)
  else
    let ip0 := hardcodeIP proj env.flags.staticIP
    if ip0 == "" then
      match env.provider.addrList with
      | Except.error e =>
        ([ApiCall.aggregatedAddressList], RunResult.fatal (Fatal.addrListError e))
      | Except.ok items =>
        buildPhase env proj coord ((findReservedIP env.flags.instName items).getD (""))
          [ApiCall.aggregatedAddressList]
    else buildPhase env proj coord ip0 []

/-- Lowercase hexadecimal digit character for a value below 16, as the Go
json encoder emits it. -/
def hexDigChar (n : Nat) : Char :=
  if n < 10 then Char.ofNat (48 + n) else Char.ofNat (87 + n)

/-- Four lowercase hexadecimal digits of a value below 65536. -/
def hex4 (n : Nat) : List Char :=
  [hexDigChar (n / 4096 % 16), hexDigChar (n / 256 % 16),
   hexDigChar (n / 16 % 16), hexDigChar (n % 16)]

/-- Characters the Go json encoder writes as a u-escape: the remaining
control characters, the HTML-sensitive characters, and the two Unicode line
separators. -/
def needsUEsc (c : Char) : Bool :=
  decide (c.toNat < 32) || c == '<' || c == '>' || c == '&' ||
    decide (c.toNat = 8232) || decide (c.toNat = 8233)

/-- Escape of one character inside a json string, modelling the default Go
encoding/json string encoder. -/
def escChar (c : Char) : List Char :=
  if c == qC then [bsC, qC]
  else if c == bsC then [bsC, bsC]
  else if c == nlC then [bsC, 'n']
  else if c == crC then [bsC, 'r']
  else if c == tbC then [bsC, 't']
  else if needsUEsc c then bsC :: 'u' :: hex4 c.toNat
  else [c]

/-- Escape of a character sequence inside a json string. -/
def escStr : List Char → List Char
  | [] => []
  | c :: cs => escChar c ++ escStr cs

/-- Full json string literal for a Lean string: quote, escaped body,
quote. -/
def jString (s : String) : List Char :=
  qC :: (escStr s.data ++ [qC])

/-- Value of a hexadecimal digit character, accepting both cases as the Go
json decoder does. -/
def hexVal (c : Char) : Option Nat :=
  if 48 ≤ c.toNat ∧ c.toNat ≤ 57 then some (c.toNat - 48)
  else if 97 ≤ c.toNat ∧ c.toNat ≤ 102 then some (c.toNat - 87)
  else if 65 ≤ c.toNat ∧ c.toNat ≤ 70 then some (c.toNat - 55)
  else none

/-- Parser for the body of a json string after the opening quote, modelling
the part of the Go json decoder that this program can encounter on files it
wrote itself: returns the decoded characters and the input after the closing
quote. -/
def parseEscBody : List Char → Option (List Char × List Char)
  | [] => none
  | c :: rest =>
    if c == qC then some ([], rest)
    else if c == bsC then
      match rest with
      | [] => none
      | e :: rest2 =>
        if e == qC then (parseEscBody rest2).map (fun p => (qC :: p.1, p.2))
        else if e == bsC then (parseEscBody rest2).map (fun p => (bsC :: p.1, p.2))
        else if e == 'n' then (parseEscBody rest2).map (fun p => (nlC :: p.1, p.2))
        else if e == 'r' then (parseEscBody rest2).map (fun p => (crC :: p.1, p.2))
        else if e == 't' then (parseEscBody rest2).map (fun p => (tbC :: p.1, p.2))
        else if e == 'u' then
          match rest2 with
          | d1 :: d2 :: d3 :: d4 :: rest3 =>
            match hexVal d1, hexVal d2, hexVal d3, hexVal d4 with
            | some h1, some h2, some h3, some h4 =>
              (parseEscBody rest3).map
                (fun p =>
                  (Char.ofNat (((h1 * 16 + h2) * 16 + h3) * 16 + h4) :: p.1, p.2))
            | _, _, _, _ => none
          | _ => none
        else none
    else (parseEscBody rest).map (fun p => (c :: p.1, p.2))

/-- Parser for a whole json string literal: expects an opening quote and
returns the decoded string and the remaining input. -/
def parseJString (input : List Char) : Option (String × List Char) :=
  match input with
  | [] => none
  | c :: rest =>
    if c == qC then (parseEscBody rest).map (fun p => (String.mk p.1, p.2))
    else none

/-- Matcher for a fixed literal chunk at the head of the input, returning
the input after it. -/
def expectLit (lit input : List Char) : Option (List Char) :=
  if lit.isPrefixOf input then some (input.drop lit.length) else none

/-- OAuth token as cached on disk, restricted to its json-serialized fields:
the three string fields of the oauth2 Token struct and the expiry timestamp
in its serialized textual form. -/
structure Token where
  accessToken : String
  tokenType : String
  refreshToken : String
  expiry : String
deriving DecidableEq

/-- Literal chunk starting the serialized token: opening brace and the
access_token key. -/
def keyAccess : List Char :=
  qC :: ("access_token".data ++ [qC, ':'])

/-- Literal chunk introducing the token_type field. -/
def keyType : List Char :=
  ',' :: qC :: ("token_type".data ++ [qC, ':'])

/-- Literal chunk introducing the refresh_token field. -/
def keyRefresh : List Char :=
  ',' :: qC :: ("refresh_token".data ++ [qC, ':'])

/-- Literal chunk introducing the expiry field. -/
def keyExpiry : List Char :=
  ',' :: qC :: ("expiry".data ++ [qC, ':'])

/-- Serialization of a token as the Go json.Marshal call of WriteToken
produces it: fields in struct order, token_type and refresh_token omitted
when empty as their omitempty tags direct, expiry always present. -/
def encodeTokenL (t : Token) : List Char :=
  lbC :: (keyAccess ++ (jString t.accessToken ++
    ((if t.tokenType == "" then [] else keyType ++ jString t.tokenType) ++
      ((if t.refreshToken == "" then [] else keyRefresh ++ jString t.refreshToken) ++
        (keyExpiry ++ (jString t.expiry ++ [rbC]))))))

/-- Parser for one optional serialized field introduced by the given key
literal; yields the empty string when the key is not present, as the Go
decoder leaves the zero value in place for an absent field. -/
def tryField (key input : List Char) : Option (String × List Char) :=
  match expectLit key input with
  | some r => parseJString r
  | none => some ("", input)

/-- Deserialization of a token as the json.Unmarshal call of the Token
method reads back what WriteToken wrote: the grammar of encodeTokenL with
the two optional fields optional, requiring the input to be consumed
entirely. -/
def decodeTokenL (input : List Char) : Option Token :=
  (expectLit [lbC] input).bind (fun r0 =>
  (expectLit keyAccess r0).bind (fun r1 =>
  (parseJString r1).bind (fun pa =>
  (tryField keyType pa.2).bind (fun pt =>
  (tryField keyRefresh pt.2).bind (fun pr =>
  (expectLit keyExpiry pr.2).bind (fun r5 =>
  (parseJString r5).bind (fun pe =>
  (expectLit [rbC] pe.2).bind (fun r7 =>
  if r7.isEmpty then
    some { accessToken := pa.1, tokenType := pt.1,
           refreshToken := pr.1, expiry := pe.1 }
  else none))))))))

/-- String-level serialization of a token. -/
def encodeToken (t : Token) : String := String.mk (encodeTokenL t)

/-- String-level deserialization of a token. -/
def decodeToken (s : String) : Option Token := decodeTokenL s.data

/-- File system model: an association list from path to file content, newest
entry first. -/
def FileSys : Type := List (String × String)

/-- WriteToken of tokenCacheFile, lines 331 to 337 of create.go: marshal the
token and write the bytes at the cache path. -/
def writeTokenFS (path : String) (t : Token) (fs : FileSys) : FileSys :=
  (path, encodeToken t) :: fs

/-- Token of tokenCacheFile, lines 319 to 329 of create.go: read the file at
the cache path and unmarshal it, failing when the file is absent or does not
parse. -/
def readTokenFS (path : String) (fs : FileSys) : Option Token :=
  (List.lookup path fs).bind decodeToken

/-- Staging prefix of token and client credential file names, the function
stagingPrefix of create.go. -/
def stagePfx (staging : Bool) : String :=
  if staging then "staging-" else ""

/-- Token sources the credential path can produce: the provider default
source, a reuse source backed only by the cache file, and a reuse source
seeded with a concrete token. -/
inductive TokenSrc where
  | googleDefault
  | reuseCacheBacked (path : String)
  | reuseStatic (t : Token)
deriving DecidableEq

/-- Fatal exits of the credential path. -/
inductive CredFatal where
  | fileReadError (path : String)
  | exchangeError
  | writeError (path : String)
deriving DecidableEq

/-- Environment of one credential acquisition: whether the provider default
discovery succeeds, the contents of the client id, client secret and cached
token files when readable, the token the interactive exchange would produce
when it succeeds, and whether the cache write succeeds. -/
structure CredEnv where
  defaultSourceOk : Bool
  clientID : Option String
  clientSecret : Option String
  cachedTokenFile : Option String
  exchangeResult : Option Token
  writeOk : Bool

/-- Credential acquisition, the function tokenSource of create.go, lines 222
to 264.  The Go function declares a local variable named tokensource in all
lowercase, then binds and updates a distinct camel-case local named
tokenSource on every path: the provider-default branch returns the
camel-case local, but both the cached-token branch and the
interactive-exchange branch fall through to the final return statement,
which returns the all-lowercase local that no statement ever assigned, that
is, the nil interface value, modelled here as none.  The let binding below
reproduces that never-assigned local. -/
def tokenSourceFn (staging : Bool) (env : CredEnv) : Except CredFatal (Option TokenSrc) :=
  let tokensource : Option TokenSrc := none
  if env.defaultSourceOk then Except.ok (some TokenSrc.googleDefault)
  else
    match env.clientID with
    | none => Except.error (CredFatal.fileReadError (stagePfx staging ++ "client-id.dat"))
    | some _ =>
      match env.clientSecret with
      | none =>
        Except.error (CredFatal.fileReadError (stagePfx staging ++ "client-secret.dat"))
      | some _ =>
        let tokenFileName := stagePfx staging ++ "token.dat"
        match env.cachedTokenFile.bind decodeToken with
        | some _ => Except.ok tokensource
        | none =>
          match env.exchangeResult with
          | none => Except.error CredFatal.exchangeError
          | some tok =>
            if env.writeOk then
              let _tokenSource := some (TokenSrc.reuseStatic tok)
              Except.ok tokensource
            else Except.error (CredFatal.writeError tokenFileName)

/-- Predicate selecting poll responses that keep the loop running: a
successful Get whose status is PENDING or RUNNING. -/
def pendingOrRunning (r : Except String Operation) : Bool :=
  match r with
  | Except.ok op => op.status == "PENDING" || op.status == "RUNNING"
  | Except.error _ => false

/-- Condition that the SSH public key file read of the render step does not
fatal: the flag is empty or the file is readable. -/
def sshReadOk (env : RunEnv) : Prop := env.flags.sshPub ≠ some none

/-- Condition that the network address resolution step does not fatal: the
address is already fixed before the aggregated listing, or that listing
succeeds. -/
def ipStepOk (env : RunEnv) : Prop :=
  hardcodeIP (effProj env.flags) env.flags.staticIP ≠ "" ∨
    ∃ items, env.provider.addrList = Except.ok items

/-- Split of the base template around the first occurrence of the
coordinator placeholder, used to reason about the size of the rendered
blob. -/
def cfgSplit : List Char × List Char :=
  (splitFirstL ("$COORDINATOR".data) baseConfig.data).getD ([], [])

/-- Coordinator URL of thirty-three thousand bytes, an input that drives the
rendered blob over the size ceiling. -/
def bigCoord : String := String.mk (List.replicate 33000 'a')

/-- Provider environment whose calls all succeed trivially. -/
def quietProvider : ProviderEnv :=
  { addrList := Except.ok []
    disks := Except.ok []
    insertOp := Except.ok ("op")
    polls := [Except.ok { name := "op", status := "DONE", error := none }]
    finalInst := Except.ok ("inst") }

/-- Run environment with an oversized coordinator URL, a fixed static IP and
no SSH key flag. -/
def envBig : RunEnv :=
  { flags :=
      { proj := "p", zone := "z", mach := "m", instName := "i"
        sshPub := none, staticIP := "1.2.3.4", reuseDisk := false
        ssd := false, coordinator := bigCoord, staging := false }
    userEnv := "nobody"
    provider := quietProvider }

/-- Aggregated address list holding one reserved address named for the
instance farmer, the scenario of claim C3. -/
def items3 : List (List Address) :=
  [[{ name := "farmer-ip", status := "RESERVED", address := "203.0.113.9" }]]

/-- Disk listing holding the matching stateless disk of the instance
farmer. -/
def disks4 : List Disk :=
  [{ name := "farmer-coreos-stateless-pd", selfLink := "https://example.com/disks/farmer" }]

/-- Provider environment whose operation completes DONE carrying a non-nil
error object with an empty sub-error list. -/
def p5 : ProviderEnv :=
  { addrList := Except.ok []
    disks := Except.ok []
    insertOp := Except.ok ("op")
    polls := [Except.ok { name := "op", status := "DONE", error := some [] }]
    finalInst := Except.ok ("inst") }

/-- Poll prefix of one PENDING and one RUNNING response. -/
def pre6 : List (Except String Operation) :=
  [Except.ok { name := "op", status := "PENDING", error := none },
   Except.ok { name := "op", status := "RUNNING", error := none }]

/-- Terminal DONE operation with no error object. -/
def done6 : Operation := { name := "op", status := "DONE", error := none }

/-- Provider environment whose first poll response carries an unrecognized
status, followed by a further response the loop must never consume. -/
def p7 : ProviderEnv :=
  { addrList := Except.ok []
    disks := Except.ok []
    insertOp := Except.ok ("op")
    polls := [Except.ok { name := "op", status := "WEIRD", error := none },
              Except.ok { name := "op", status := "PENDING", error := none }]
    finalInst := Except.ok ("inst") }

/-- Concrete attached disk used to instantiate the instance builder. -/
def disk8 : AttachedDisk :=
  { autoDelete := false, boot := true, deviceName := "d", diskKind := "PERSISTENT"
    source := "s", mode := "READ_WRITE", initializeParams := none }

/-- Concrete token used by the credential scenario. -/
def credTok : Token :=
  { accessToken := "at", tokenType := "Bearer", refreshToken := "rt"
    expiry := "2015-01-01T00:00:00Z" }

/-- Credential environment of the interactive path of claim C1: the
provider-default discovery fails, the client files are readable, no cached
token parses, the interactive exchange succeeds and the cache write
succeeds. -/
def credEnv1 : CredEnv :=
  { defaultSourceOk := false
    clientID := some ("cid")
    clientSecret := some ("cs")
    cachedTokenFile := none
    exchangeResult := some credTok
    writeOk := true }

theorem strBytesL_append (l1 l2 : List Char) :
    strBytesL (l1 ++ l2) = strBytesL l1 + strBytesL l2 := by
  induction l1 with
  | nil => simp [strBytesL]
  | cons c cs ih => simp [strBytesL, ih]; omega

theorem strBytesL_replicate_a (n : Nat) :
    strBytesL (List.replicate n 'a') = n := by
  induction n with
  | zero => rfl
  | succ k ih =>
    simp [List.replicate_succ, strBytesL, ih]
    rw [show utf8Len 'a' = 1 from rfl]
    omega

theorem expectLit_append (lit rest : List Char) :
    expectLit lit (lit ++ rest) = some rest := by
  unfold expectLit
  rw [if_pos, List.drop_left]
  exact List.isPrefixOf_iff_prefix.mpr (List.prefix_append lit rest)

theorem hexVal_hexDigChar (n : Nat) (h : n < 16) :
    hexVal (hexDigChar n) = some n := by
  interval_cases n <;> decide

theorem needsUEsc_lt (c : Char) (h : needsUEsc c = true) : c.toNat < 65536 := by
  unfold needsUEsc at h
  simp only [Bool.or_eq_true, decide_eq_true_eq, beq_iff_eq] at h
  rcases h with ((((h | h) | h) | h) | h) | h
  · omega
  · subst h; decide
  · subst h; decide
  · subst h; decide
  · omega
  · omega

theorem parseEscBody_escChar (c : Char) (l : List Char) :
    parseEscBody (escChar c ++ l) =
      (parseEscBody l).map (fun p => (c :: p.1, p.2)) := by
  by_cases h1 : c = qC
  · subst h1
    rw [show escChar qC ++ l = bsC :: qC :: l from rfl, parseEscBody.eq_def]
    simp [show (bsC == qC) = false from by decide,
          show (bsC == bsC) = true from by decide,
          show (qC == qC) = true from by decide]
  · have e1 : (c == qC) = false := beq_eq_false_iff_ne.mpr h1
    by_cases h2 : c = bsC
    · subst h2
      rw [show escChar bsC ++ l = bsC :: bsC :: l from rfl, parseEscBody.eq_def]
      simp [show (bsC == qC) = false from by decide,
            show (bsC == bsC) = true from by decide]
    · have e2 : (c == bsC) = false := beq_eq_false_iff_ne.mpr h2
      by_cases h3 : c = nlC
      · subst h3
        rw [show escChar nlC ++ l = bsC :: 'n' :: l from rfl, parseEscBody.eq_def]
        simp [show (bsC == qC) = false from by decide,
              show (bsC == bsC) = true from by decide,
              show (Eq ('n' == qC) false) from by decide,
              show (Eq ('n' == bsC) false) from by decide,
              show (Eq ('n' == 'n') true) from by decide]
      · have e3 : (c == nlC) = false := beq_eq_false_iff_ne.mpr h3
        by_cases h4 : c = crC
        · subst h4
          rw [show escChar crC ++ l = bsC :: 'r' :: l from rfl, parseEscBody.eq_def]
          simp [show (bsC == qC) = false from by decide,
                show (bsC == bsC) = true from by decide,
                show (Eq ('r' == qC) false) from by decide,
                show (Eq ('r' == bsC) false) from by decide,
                show (Eq ('r' == 'n') false) from by decide,
                show (Eq ('r' == 'r') true) from by decide]
        · have e4 : (c == crC) = false := beq_eq_false_iff_ne.mpr h4
          by_cases h5 : c = tbC
          · subst h5
            rw [show escChar tbC ++ l = bsC :: 't' :: l from rfl, parseEscBody.eq_def]
            simp [show (bsC == qC) = false from by decide,
                  show (bsC == bsC) = true from by decide,
                  show (Eq ('t' == qC) false) from by decide,
                  show (Eq ('t' == bsC) false) from by decide,
                  show (Eq ('t' == 'n') false) from by decide,
                  show (Eq ('t' == 'r') false) from by decide,
                  show (Eq ('t' == 't') true) from by decide]
          · have e5 : (c == tbC) = false := beq_eq_false_iff_ne.mpr h5
            by_cases h6 : needsUEsc c = true
            · have hesc : escChar c ++ l = bsC :: 'u' :: (hex4 c.toNat ++ l) := by
                unfold escChar
                rw [e1, e2, e3, e4, e5]
                simp [h6, hex4]
              rw [hesc, parseEscBody.eq_def]
              simp only [show (bsC == qC) = false from by decide,
                show (bsC == bsC) = true from by decide,
                show (Eq ('u' == qC) false) from by decide,
                show (Eq ('u' == bsC) false) from by decide,
                show (Eq ('u' == 'n') false) from by decide,
                show (Eq ('u' == 'r') false) from by decide,
                show (Eq ('u' == 't') false) from by decide,
                show (Eq ('u' == 'u') true) from by decide,
                Bool.false_eq_true, if_false, if_true, hex4, List.cons_append]
              rw [hexVal_hexDigChar _ (Nat.mod_lt _ (by omega)),
                  hexVal_hexDigChar _ (Nat.mod_lt _ (by omega)),
                  hexVal_hexDigChar _ (Nat.mod_lt _ (by omega)),
                  hexVal_hexDigChar _ (Nat.mod_lt _ (by omega))]
              have hn : c.toNat < 65536 := needsUEsc_lt c h6
              have harith :
                  ((c.toNat / 4096 % 16 * 16 + c.toNat / 256 % 16) * 16 +
                      c.toNat / 16 % 16) * 16 + c.toNat % 16 = c.toNat := by
                omega
              simp only [List.nil_append]
              simp [harith, Char.ofNat_toNat]
            · have e6 : needsUEsc c = false := by
                cases hx : needsUEsc c
                · rfl
                · exact absurd hx h6
              have hesc : escChar c ++ l = c :: l := by
                unfold escChar
                rw [e1, e2, e3, e4, e5, e6]
                simp
              rw [hesc, parseEscBody.eq_def]
              simp [e1, e2]

theorem parseEscBody_escStr (s l : List Char) :
    parseEscBody (escStr s ++ (qC :: l)) = some (s, l) := by
  induction s with
  | nil =>
    show parseEscBody (qC :: l) = some ([], l)
    rw [parseEscBody.eq_def]
    simp [show (qC == qC) = true from by decide]
  | cons c cs ih =>
    show parseEscBody ((escChar c ++ escStr cs) ++ (qC :: l)) = _
    rw [List.append_assoc, parseEscBody_escChar, ih]
    rfl

theorem parseJString_jString (s : String) (l : List Char) :
    parseJString (jString s ++ l) = some (s, l) := by
  have h0 : parseJString (jString s ++ l) =
      (parseEscBody ((escStr s.data ++ [qC]) ++ l)).map
        (fun p => (String.mk p.1, p.2)) := rfl
  rw [h0, List.append_assoc, show [qC] ++ l = qC :: l from rfl, parseEscBody_escStr]
  rfl

theorem tryField_hit (key : List Char) (s : String) (l : List Char) :
    tryField key (key ++ (jString s ++ l)) = some (s, l) := by
  unfold tryField
  rw [expectLit_append]
  show parseJString (jString s ++ l) = some (s, l)
  exact parseJString_jString s l

theorem tryField_keyType_refresh (l : List Char) :
    tryField keyType (keyRefresh ++ l) = some ("", keyRefresh ++ l) := rfl

theorem tryField_keyType_expiry (l : List Char) :
    tryField keyType (keyExpiry ++ l) = some ("", keyExpiry ++ l) := rfl

theorem tryField_keyRefresh_expiry (l : List Char) :
    tryField keyRefresh (keyExpiry ++ l) = some ("", keyExpiry ++ l) := rfl

theorem decode_encode (t : Token) : decodeTokenL (encodeTokenL t) = some t := by
  obtain ⟨a, ty, re, ex⟩ := t
  have hlb : encodeTokenL ⟨a, ty, re, ex⟩ = [lbC] ++ (keyAccess ++ (jString a ++
      ((if ty == "" then [] else keyType ++ jString ty) ++
        ((if re == "" then [] else keyRefresh ++ jString re) ++
          (keyExpiry ++ (jString ex ++ [rbC])))))) := rfl
  have hrb : ∀ s : String, jString s ++ [rbC] = jString s ++ ([rbC] ++ []) := by simp
  unfold decodeTokenL
  rw [hlb, expectLit_append, Option.some_bind, expectLit_append, Option.some_bind,
      parseJString_jString, Option.some_bind]
  by_cases hty : ty = ""
  · rw [if_pos (beq_iff_eq.mpr hty), List.nil_append]
    by_cases hre : re = ""
    · rw [if_pos (beq_iff_eq.mpr hre), List.nil_append]
      rw [tryField_keyType_expiry, Option.some_bind,
          tryField_keyRefresh_expiry, Option.some_bind,
          expectLit_append, Option.some_bind, hrb,
          parseJString_jString, Option.some_bind, expectLit_append, Option.some_bind]
      simp [hty, hre]
    · rw [if_neg (by simpa using hre), List.append_assoc keyRefresh]
      rw [tryField_keyType_refresh, Option.some_bind,
          tryField_hit, Option.some_bind,
          expectLit_append, Option.some_bind, hrb,
          parseJString_jString, Option.some_bind, expectLit_append, Option.some_bind]
      simp [hty]
  · rw [if_neg (by simpa using hty), List.append_assoc keyType]
    rw [tryField_hit, Option.some_bind]
    by_cases hre : re = ""
    · rw [if_pos (beq_iff_eq.mpr hre), List.nil_append]
      rw [tryField_keyRefresh_expiry, Option.some_bind,
          expectLit_append, Option.some_bind, hrb,
          parseJString_jString, Option.some_bind, expectLit_append, Option.some_bind]
      simp [hre]
    · rw [if_neg (by simpa using hre), List.append_assoc keyRefresh]
      rw [tryField_hit, Option.some_bind,
          expectLit_append, Option.some_bind, hrb,
          parseJString_jString, Option.some_bind, expectLit_append, Option.some_bind]
      simp

theorem opLoop_pending_prefix (pre l : List (Except String Operation))
    (hpre : pre.all pendingOrRunning = true) :
    opLoop (pre ++ l) =
      (List.replicate pre.length ApiCall.getOperation ++ (opLoop l).1,
        (opLoop l).2) := by
  induction pre with
  | nil => simp
  | cons r rest ih =>
    rw [List.all_cons, Bool.and_eq_true] at hpre
    obtain ⟨hr, hrest⟩ := hpre
    cases r with
    | error e => simp [pendingOrRunning] at hr
    | ok op =>
      have hcond : (op.status == "PENDING" || op.status == "RUNNING") = true := hr
      show opLoop (Except.ok op :: (rest ++ l)) = _
      rw [opLoop.eq_def]
      simp only [hcond, if_true]
      rw [ih hrest]
      simp [List.replicate_succ]

theorem opLoop_done (d : Operation) (hd : d.status = "DONE") :
    (d.error = none →
      opLoop [Except.ok d] = ([ApiCall.getOperation], LoopRes.success d)) ∧
    (∀ errs, d.error = some errs →
      opLoop [Except.ok d] = ([ApiCall.getOperation], LoopRes.opFailed errs)) := by
  constructor
  · intro he
    rw [opLoop.eq_def]
    simp [hd, he]
  · intro errs he
    rw [opLoop.eq_def]
    simp [hd, he]

/-- Claim C1 (code bug): in the interactive acquisition scenario of the
claim, where provider-default discovery fails, no cached token loads, and
the exchange and the cache write both succeed, the Go function tokenSource
returns its never-assigned lowercase local, that is, a nil token source,
rather than a credential built from the exchanged token. -/
theorem c1_token_source_nil :
    tokenSourceFn false credEnv1 = Except.ok none ∧
    Except.ok (some (TokenSrc.reuseStatic credTok)) ≠ tokenSourceFn false credEnv1 := by
  refine ⟨rfl, ?_⟩
  intro h
  rw [show tokenSourceFn false credEnv1 = Except.ok none from rfl] at h
  exact Option.noConfusion (Except.ok.inj h)

/-- Claim C3 (counterexample): with project symbolic-datum-552, an empty
explicit IP and a reserved address farmer-ip in the listing, the code
resolves the hard-coded legacy address, not the listed reserved address the
claim requires, so explicit input and the reserved lookup are not the only
sources of an address. -/
theorem c3_ip_order_counterexample :
    resolveNatIP ("symbolic-datum-552") ("farmer") ("") items3 = "107.178.219.46" ∧
    claimResolveNatIP ("farmer") ("") items3 = "203.0.113.9" ∧
    resolveNatIP ("symbolic-datum-552") ("farmer") ("") items3 ≠
      claimResolveNatIP ("farmer") ("") items3 := by
  decide

/-- Claim C3 (amended): the resolved network address follows the order
explicit input, then the hard-coded legacy address of the two known project
IDs, then the first reserved listing entry named for the instance, then the
empty dynamic-allocation sentinel. -/
theorem c3_ip_order_amended (proj instName ip : String) (items : List (List Address)) :
    resolveNatIP proj instName ip items = amendedResolveNatIP proj instName ip items := by
  unfold resolveNatIP amendedResolveNatIP hardcodeIP
  by_cases hip : ip = "" <;>
    by_cases hp : proj = "symbolic-datum-552" <;>
      by_cases hq : proj = "go-dashboard-dev" <;>
        simp_all

/-- Claim C4: the disk resolver returns the reference descriptor with
auto-delete false and the source of the found disk exactly when reuse is
requested and the listing holds a disk with the derived name, and otherwise
the fresh specification with auto-delete the negation of reuse, fifty
gigabytes, and the solid-state type URL exactly when the SSD option is
set. -/
theorem c4_disk_resolver (instName proj zone : String) (reuse ssd : Bool)
    (disks : List Disk) :
    (∀ d, reuse = true →
      disks.find? (fun x => x.name == instName ++ "-coreos-stateless-pd") = some d →
      instanceDisk instName proj zone reuse ssd disks =
        { autoDelete := false, boot := true,
          deviceName := instName ++ "-coreos-stateless-pd", diskKind := "PERSISTENT",
          source := d.selfLink, mode := "READ_WRITE", initializeParams := none }) ∧
    ((reuse = false ∨
        disks.find? (fun x => x.name == instName ++ "-coreos-stateless-pd") = none) →
      instanceDisk instName proj zone reuse ssd disks =
        { autoDelete := !reuse, boot := true, deviceName := "",
          diskKind := "PERSISTENT", source := "", mode := "",
          initializeParams := some
            { diskName := instName ++ "-coreos-stateless-pd", sourceImage := imageURL,
              diskSizeGb := 50,
              diskType := if ssd then ssdTypeURL proj zone else "" } }) := by
  constructor
  · intro d hreuse hfind
    subst hreuse
    simp [instanceDisk, hfind]
  · intro h
    rcases h with hfalse | hnone
    · subst hfalse
      simp [instanceDisk]
    · cases reuse
      · simp [instanceDisk]
      · simp [instanceDisk, hnone]

/-- Witness for claim C4: on a listing holding the matching disk of the
instance farmer, reuse yields the reference descriptor and non-reuse yields
the fresh solid-state specification. -/
theorem c4_disk_resolver_witness :
    disks4.find? (fun x => x.name == "farmer" ++ "-coreos-stateless-pd") =
      some { name := "farmer-coreos-stateless-pd",
             selfLink := "https://example.com/disks/farmer" } ∧
    instanceDisk ("farmer") ("p") ("z") true true disks4 =
      { autoDelete := false, boot := true,
        deviceName := "farmer" ++ "-coreos-stateless-pd", diskKind := "PERSISTENT",
        source := "https://example.com/disks/farmer", mode := "READ_WRITE",
        initializeParams := none } ∧
    instanceDisk ("farmer") ("p") ("z") false true disks4 =
      { autoDelete := !false, boot := true, deviceName := "",
        diskKind := "PERSISTENT", source := "", mode := "",
        initializeParams := some
          { diskName := "farmer" ++ "-coreos-stateless-pd", sourceImage := imageURL,
            diskSizeGb := 50,
            diskType := if true then ssdTypeURL ("p") ("z") else "" } } := by
  refine ⟨by decide, ?_, ?_⟩
  · exact (c4_disk_resolver ("farmer") ("p") ("z") true true disks4).1
      { name := "farmer-coreos-stateless-pd",
        selfLink := "https://example.com/disks/farmer" } rfl (by decide)
  · exact (c4_disk_resolver ("farmer") ("p") ("z") false true disks4).2 (Or.inl rfl)

/-- Claim C8 (counterexample): the built instance requests the storage
full-control scope, not the storage read-write scope the claim names, so
the requested scope set is not the claimed one. -/
theorem c8_scopes_counterexample :
    (buildInstance ("farmer") ("mt") ("ub") disk8 ("cc") ("")).serviceAccounts.map
        ServiceAccount.scopes =
      [[devstorageFullControlScope, computeManagementScope, cloudPlatformScope]] ∧
    devstorageReadWriteScope ∉
      [devstorageFullControlScope, computeManagementScope, cloudPlatformScope] ∧
    [[devstorageFullControlScope, computeManagementScope, cloudPlatformScope]] ≠
      [claimScopes] := by
  decide

/-- Claim C8 (amended): for every input, the built instance specification
requests exactly the fixed scopes storage full-control, compute management
and full cloud-platform access, unconditionally. -/
theorem c8_scopes_amended (instName machType urlBase : String) (disk : AttachedDisk)
    (cc natIP : String) :
    (buildInstance instName machType urlBase disk cc natIP).serviceAccounts =
      [{ email := "default",
         scopes := [devstorageFullControlScope, computeManagementScope,
                    cloudPlatformScope] }] := rfl

/-- Claim C9: with flags, template and SSH key file held fixed, the rendered
blob for USER bradfitz is the rendered blob for any other USER value with
the hard-coded authorized-key stanza appended, and the two blobs differ. -/
theorem c9_user_env_dependence (coord : String) (sshKey : Option String) (u : String)
    (hu : u ≠ "bradfitz") :
    cloudConfigOf coord sshKey ("bradfitz") =
      cloudConfigOf coord sshKey u ++ sshStanza bradKey ∧
    cloudConfigOf coord sshKey ("bradfitz") ≠ cloudConfigOf coord sshKey u := by
  have hb : (("bradfitz" : String) == "bradfitz") = true := by decide
  have hnu : (u == "bradfitz") = false := beq_eq_false_iff_ne.mpr hu
  have heq : cloudConfigOf coord sshKey ("bradfitz") =
      cloudConfigOf coord sshKey u ++ sshStanza bradKey := by
    unfold cloudConfigOf
    rw [hb, hnu]
    simp
  refine ⟨heq, ?_⟩
  intro hcontra
  rw [heq] at hcontra
  have hlen := congrArg String.length hcontra
  rw [String.length_append] at hlen
  have hpos : 0 < (sshStanza bradKey).length := by decide
  omega

/-- Witness for claim C9: at the USER value alice the two rendered blobs
differ by exactly the hard-coded stanza. -/
theorem c9_user_env_dependence_witness :
    ("alice" : String) ≠ "bradfitz" ∧
    cloudConfigOf ("cd") none ("bradfitz") =
      cloudConfigOf ("cd") none ("alice") ++ sshStanza bradKey ∧
    cloudConfigOf ("cd") none ("bradfitz") ≠ cloudConfigOf ("cd") none ("alice") := by
  refine ⟨by decide, ?_, ?_⟩
  · exact (c9_user_env_dependence ("cd") none ("alice") (by decide)).1
  · exact (c9_user_env_dependence ("cd") none ("alice") (by decide)).2

/-- Claim C5 (counterexample): a DONE response carrying a non-nil error
object with an empty sub-error list makes the run fail with an operation
error and no final instance fetch, while the claim promises success and one
fetch whenever the error list is empty. -/
theorem c5_done_counterexample :
    (afterInsertPhase p5).2 = RunResult.fatal (Fatal.operationError []) ∧
    (afterInsertPhase p5).2 ≠ RunResult.success ∧
    (afterInsertPhase p5).1.count ApiCall.getInstance = 0 := by
  refine ⟨rfl, ?_, rfl⟩
  intro h
  rw [show (afterInsertPhase p5).2 = RunResult.fatal (Fatal.operationError []) from rfl] at h
  exact RunResult.noConfusion h

/-- Claim C5 (amended): after any run of PENDING or RUNNING polls, a DONE
response with an error object present terminates the run with failure
carrying every contained sub-error and performs no final instance fetch,
and a DONE response with no error object terminates the run successfully
with exactly one final instance fetch. -/
theorem c5_done_amended (pre : List (Except String Operation)) (nm : String)
    (e : Option (List OpError)) (p : ProviderEnv)
    (hpolls : p.polls = pre ++ [Except.ok { name := nm, status := "DONE", error := e }])
    (hpre : pre.all pendingOrRunning = true) :
    (∀ errs, e = some errs →
      (afterInsertPhase p).2 = RunResult.fatal (Fatal.operationError errs) ∧
      (afterInsertPhase p).1.count ApiCall.getInstance = 0) ∧
    (e = none → ∀ inst, p.finalInst = Except.ok inst →
      (afterInsertPhase p).2 = RunResult.success ∧
      (afterInsertPhase p).1.count ApiCall.getInstance = 1) := by
  constructor
  · intro errs he
    subst he
    have hl := opLoop_pending_prefix pre
      [Except.ok { name := nm, status := "DONE", error := some errs }] hpre
    have hdone := (opLoop_done { name := nm, status := "DONE", error := some errs }
      rfl).2 errs rfl
    unfold afterInsertPhase
    rw [hpolls, hl, hdone]
    simp [List.count_append, List.count_replicate]
  · intro he inst hfi
    subst he
    have hl := opLoop_pending_prefix pre
      [Except.ok { name := nm, status := "DONE", error := none }] hpre
    have hdone := (opLoop_done { name := nm, status := "DONE", error := none }
      rfl).1 rfl
    unfold afterInsertPhase
    rw [hpolls, hl, hdone, hfi]
    simp [List.count_append, List.count_replicate]

/-- Witness for claim C5 (amended): a single DONE response with no error
object yields success and exactly one final fetch. -/
theorem c5_done_amended_witness :
    quietProvider.polls =
      [] ++ [Except.ok { name := "op", status := "DONE", error := none }] ∧
    ([] : List (Except String Operation)).all pendingOrRunning = true ∧
    (afterInsertPhase quietProvider).2 = RunResult.success ∧
    (afterInsertPhase quietProvider).1.count ApiCall.getInstance = 1 := by
  refine ⟨rfl, rfl, ?_⟩
  exact (c5_done_amended [] ("op") none quietProvider rfl rfl).2 rfl ("inst") rfl

/-- Claim C6: the poll loop consumes every PENDING or RUNNING response of a
finite prefix, terminates on the following DONE response, and while only
PENDING or RUNNING responses are available it has not exited. -/
theorem c6_poll_terminates (pre : List (Except String Operation)) (d : Operation)
    (hpre : pre.all pendingOrRunning = true) (hd : d.status = "DONE") :
    (opLoop (pre ++ [Except.ok d])).1 =
      List.replicate (pre.length + 1) ApiCall.getOperation ∧
    (opLoop (pre ++ [Except.ok d])).2 ≠ LoopRes.hung ∧
    opLoop pre = (List.replicate pre.length ApiCall.getOperation, LoopRes.hung) := by
  have hl := opLoop_pending_prefix pre [Except.ok d] hpre
  have h0 := opLoop_pending_prefix pre [] hpre
  refine ⟨?_, ?_, ?_⟩
  · rw [hl]
    cases he : d.error with
    | none =>
      rw [(opLoop_done d hd).1 he]
      simp [List.replicate_succ']
    | some errs =>
      rw [(opLoop_done d hd).2 errs he]
      simp [List.replicate_succ']
  · rw [hl]
    cases he : d.error with
    | none =>
      rw [(opLoop_done d hd).1 he]
      simp
    | some errs =>
      rw [(opLoop_done d hd).2 errs he]
      simp
  · conv_lhs => rw [show pre = pre ++ [] from (List.append_nil pre).symm]
    rw [h0]
    simp [opLoop]

/-- Witness for claim C6: after one PENDING and one RUNNING response, the
loop consumes the DONE response and terminates, having emitted exactly
three poll calls, and on the prefix alone it is still waiting. -/
theorem c6_poll_terminates_witness :
    pre6.all pendingOrRunning = true ∧
    (opLoop (pre6 ++ [Except.ok done6])).1 =
      List.replicate (pre6.length + 1) ApiCall.getOperation ∧
    (opLoop (pre6 ++ [Except.ok done6])).2 ≠ LoopRes.hung ∧
    opLoop pre6 = (List.replicate pre6.length ApiCall.getOperation, LoopRes.hung) := by
  refine ⟨by decide, ?_⟩
  exact c6_poll_terminates pre6 done6 (by decide) rfl

/-- Claim C7: a poll response whose status is outside PENDING, RUNNING and
DONE stops the loop at once with the unknown-status fatal error, consuming
no further response. -/
theorem c7_unknown_status (op : Operation) (rest : List (Except String Operation))
    (p : ProviderEnv)
    (h1 : (op.status == "PENDING") = false)
    (h2 : (op.status == "RUNNING") = false)
    (h3 : (op.status == "DONE") = false)
    (hp : p.polls = Except.ok op :: rest) :
    opLoop p.polls = ([ApiCall.getOperation], LoopRes.unknown op.status) ∧
    (afterInsertPhase p).2 = RunResult.fatal (Fatal.unknownStatus op.status) ∧
    (afterInsertPhase p).1 = [ApiCall.getOperation] := by
  have hloop : opLoop (Except.ok op :: rest) =
      ([ApiCall.getOperation], LoopRes.unknown op.status) := by
    rw [opLoop.eq_def]
    simp [h1, h2, h3]
  refine ⟨hp ▸ hloop, ?_, ?_⟩
  · unfold afterInsertPhase
    rw [hp, hloop]
  · unfold afterInsertPhase
    rw [hp, hloop]

/-- Witness for claim C7: the status WEIRD aborts the run at once even
though a further PENDING response was available. -/
theorem c7_unknown_status_witness :
    p7.polls = Except.ok { name := "op", status := "WEIRD", error := none } ::
      [Except.ok { name := "op", status := "PENDING", error := none }] ∧
    opLoop p7.polls = ([ApiCall.getOperation], LoopRes.unknown ("WEIRD")) ∧
    (afterInsertPhase p7).2 = RunResult.fatal (Fatal.unknownStatus ("WEIRD")) ∧
    (afterInsertPhase p7).1 = [ApiCall.getOperation] := by
  refine ⟨rfl, ?_⟩
  exact c7_unknown_status { name := "op", status := "WEIRD", error := none }
    [Except.ok { name := "op", status := "PENDING", error := none }] p7
    (by decide) (by decide) (by decide) rfl

/-- Claim C2: whenever the rendered startup metadata blob exceeds the
32768-byte ceiling, the instance-create call is never issued, and provided
the steps before the size check do not fatal first, the run fails with the
config-too-large error carrying the oversized byte count. -/
theorem c2_config_too_large (env : RunEnv)
    (h : strBytes (renderedConfigOf env) > maxCloudConfig) :
    ApiCall.insertInstance ∉ (run env).1 ∧
    (sshReadOk env → ipStepOk env → effProj env.flags ≠ "" →
      (run env).2 =
        RunResult.fatal (Fatal.configTooLarge (strBytes (renderedConfigOf env)))) := by
  have h2 : strBytes (cloudConfigOf (effCoordinator env.flags) (sshKeyOf env.flags)
      env.userEnv) > maxCloudConfig := h
  have hbp : ∀ (proj natIP : String) (pre : List ApiCall),
      (buildPhase env proj (effCoordinator env.flags) natIP pre).1 = pre ∧
      (sshReadOk env →
        buildPhase env proj (effCoordinator env.flags) natIP pre =
          (pre, RunResult.fatal
            (Fatal.configTooLarge (strBytes (renderedConfigOf env))))) := by
    intro proj natIP pre
    unfold buildPhase
    cases hs : env.flags.sshPub with
    | none =>
      constructor
      · simp [h2]
      · intro _
        simp [h2, renderedConfigOf]
    | some o =>
      cases o with
      | none =>
        constructor
        · simp
        · intro hss
          exact absurd hs hss
      | some k =>
        constructor
        · simp [h2]
        · intro _
          simp [h2, renderedConfigOf]
  constructor
  · unfold run
    by_cases hproj : effProj env.flags = ""
    · simp only [beq_iff_eq]
      rw [if_pos hproj]
      simp
    · simp only [beq_iff_eq]
      rw [if_neg hproj]
      by_cases hip : hardcodeIP (effProj env.flags) env.flags.staticIP = ""
      · rw [if_pos hip]
        cases ha : env.provider.addrList with
        | error e => simp
        | ok items =>
          simp only []
          rw [(hbp (effProj env.flags)
            ((findReservedIP env.flags.instName items).getD (""))
            [ApiCall.aggregatedAddressList]).1]
          simp
      · rw [if_neg hip]
        rw [(hbp (effProj env.flags)
          (hardcodeIP (effProj env.flags) env.flags.staticIP) []).1]
        simp
  · intro hss hip0 hproj
    unfold run
    simp only [beq_iff_eq]
    rw [if_neg hproj]
    by_cases hip : hardcodeIP (effProj env.flags) env.flags.staticIP = ""
    · rw [if_pos hip]
      rcases hip0 with hne | ⟨items, ha⟩
      · exact absurd hip hne
      · simp only [ha]
        rw [(hbp (effProj env.flags)
          ((findReservedIP env.flags.instName items).getD (""))
          [ApiCall.aggregatedAddressList]).2 hss]
    · rw [if_neg hip]
      rw [(hbp (effProj env.flags)
        (hardcodeIP (effProj env.flags) env.flags.staticIP) []).2 hss]

/-- Witness for claim C2: a thirty-three-thousand-byte coordinator URL
drives the rendered blob over the ceiling, the create call is absent from
the issued calls, and the run fails with the config-too-large error. -/
theorem c2_config_too_large_witness :
    strBytes (renderedConfigOf envBig) > maxCloudConfig ∧
    ApiCall.insertInstance ∉ (run envBig).1 ∧
    (run envBig).2 =
      RunResult.fatal (Fatal.configTooLarge (strBytes (renderedConfigOf envBig))) := by
  have hsplit : splitFirstL ("$COORDINATOR".data) baseConfig.data =
      some (cfgSplit.1, cfgSplit.2) := rfl
  have hrepl : replaceOnceL baseConfig.data ("$COORDINATOR".data) bigCoord.data =
      cfgSplit.1 ++ (bigCoord.data ++ cfgSplit.2) := by
    unfold replaceOnceL
    rw [hsplit]
    rfl
  have hsz : strBytes (renderedConfigOf envBig) > maxCloudConfig := by
    rw [show strBytes (renderedConfigOf envBig) =
        strBytesL (replaceOnceL baseConfig.data ("$COORDINATOR".data) bigCoord.data)
        from rfl]
    rw [hrepl, strBytesL_append, show bigCoord.data = List.replicate 33000 'a' from rfl,
        strBytesL_append, strBytesL_replicate_a]
    rw [show maxCloudConfig = 32768 from rfl]
    omega
  refine ⟨hsz, (c2_config_too_large envBig hsz).1, ?_⟩
  exact (c2_config_too_large envBig hsz).2 (by unfold sshReadOk; decide)
    (Or.inl (by decide)) (by decide)

/-- Claim C10: writing any token through WriteToken and reading the same
cache path back through Token recovers the token: the serialization of its
cached fields followed by deserialization is the identity. -/
theorem c10_token_roundtrip (path : String) (t : Token) (fs : FileSys) :
    readTokenFS path (writeTokenFS path t fs) = some t := by
  unfold readTokenFS writeTokenFS
  rw [show List.lookup path ((path, encodeToken t) :: fs) = some (encodeToken t) from by
    simp [List.lookup]]
  show decodeToken (encodeToken t) = some t
  rw [show decodeToken (encodeToken t) = decodeTokenL (encodeTokenL t) from rfl]
  exact decode_encode t
